/- Verification development for the XS Miền Bắc Intelligence frontend and its
   lottery backtesting contract.

   The data model is embedded from `frontend/src/types.ts`; the operations are
   embedded from `frontend/src/api/client.ts`, `frontend/src/hooks/useAsync.ts`,
   the React components (`TailHeatmap`, `NumberFrequencyList`,
   `AlgorithmSelector`, `PredictionPanel`, `BacktestPro`).  The backtest engine
   itself lives in the backend (not part of this source tree); where a property
   concerns the engine, a definition explicitly modelled from the written
   specification is used and marked as such in its doc comment.

   Conventions of the shallow embedding: JavaScript numbers are embedded as ℚ
   (all the arithmetic involved is exact decimal/rational arithmetic); integer
   counts as ℕ; `T | null` and optional fields as `Option`; `string` as
   `String`; arrays as `List`. -/
import Mathlib

namespace XSMB

/-! ## Data model, from `frontend/src/types.ts` -/

/-- `LottoTimelineBet` (types.ts lines 177–184).
    `rank?: number | null` and `probability?: number | null` are embedded as a
    single `Option` since both absence and `null` are rendered the same way. -/
structure LottoTimelineBet where
  number : String
  stake : ℚ
  hit : Bool
  payout : ℚ
  rank : Option ℕ
  probability : Option ℚ
deriving DecidableEq, Repr

/-- `LottoTimelinePrediction` (types.ts lines 186–190). -/
structure LottoTimelinePrediction where
  rank : ℕ
  number : String
  probability : Option ℚ
deriving DecidableEq, Repr

/-- `LottoBacktestSummary` (types.ts lines 163–175). -/
structure LottoBacktestSummary where
  final_balance : ℚ
  total_bets : ℕ
  total_wins : ℕ
  total_losses : ℕ
  win_rate : ℚ
  max_drawdown : ℚ
  best_month : Option String
  best_month_pnl : Option ℚ
  sharpe_like : Option ℚ
  accuracy : ℚ
  stop_reason : String
deriving DecidableEq, Repr

/-- `LottoTimelineEntry` (types.ts lines 192–204). -/
structure LottoTimelineEntry where
  date : String
  capital_start : ℚ
  capital_end : ℚ
  stake_total : ℚ
  pnl : ℚ
  bets : List LottoTimelineBet
  predictions : List LottoTimelinePrediction
  hits : List String
  drawdown : ℚ
  daily_return : ℚ
  capital_halted : Bool
deriving DecidableEq, Repr

/-- `LottoChartPoint` (types.ts lines 206–209). -/
structure LottoChartPoint where
  date : String
  value : ℚ
deriving DecidableEq, Repr

/-- `LottoBacktestCharts` (types.ts lines 211–215). -/
structure LottoBacktestCharts where
  capital_curve : List LottoChartPoint
  accuracy_curve : List LottoChartPoint
  profit_curve : List LottoChartPoint
deriving DecidableEq, Repr

/-! ## Theorems for claim C2 -/

/-- C2.  The run response's summary object has exactly the fields
`final_balance, total_bets, total_wins, total_losses, win_rate, max_drawdown,
best_month, best_month_pnl, sharpe_like, accuracy, stop_reason`, and every
timeline entry has exactly the fields `date, capital_start, capital_end,
stake_total, pnl, bets, predictions, hits, drawdown, daily_return,
capital_halted`: every summary value is rebuilt, with nothing lost and nothing
left over, from exactly the eleven listed summary projections, and every
timeline entry from exactly the eleven listed entry projections. -/
theorem summary_and_timeline_exact_fields :
    (∀ s : LottoBacktestSummary,
      s = ⟨s.final_balance, s.total_bets, s.total_wins, s.total_losses,
           s.win_rate, s.max_drawdown, s.best_month, s.best_month_pnl,
           s.sharpe_like, s.accuracy, s.stop_reason⟩) ∧
    (∀ e : LottoTimelineEntry,
      e = ⟨e.date, e.capital_start, e.capital_end, e.stake_total, e.pnl,
           e.bets, e.predictions, e.hits, e.drawdown, e.daily_return,
           e.capital_halted⟩) := by
  refine ⟨fun s => ?_, fun e => ?_⟩
  · cases s; rfl
  · cases e; rfl

/-! ## Numeric views over frequency data

From `frontend/src/components/TailHeatmap.tsx`,
`NumberFrequencyList` and `PredictionPanel.createDisplayResults`. -/

/-- `getIntensity(value, max)` from TailHeatmap.tsx lines 7–10:
`if (max === 0) return 0; return value / max;`. -/
def getIntensity (value max : ℚ) : ℚ :=
  if max = 0 then 0 else value / max

/-- JavaScript `Math.round`: rounds half-way cases toward positive infinity,
i.e. `⌊x + 1/2⌋`. -/
def jsRound (x : ℚ) : ℤ :=
  ⌊x + 1 / 2⌋

/-- The percent bar width from NumberFrequencyList (src/unnamed/part_003 line
17): `max > 0 ? Math.round((item.count / max) * 100) : 0`. -/
def frequencyPercent (count max : ℚ) : ℤ :=
  if max > 0 then jsRound (count / max * 100) else 0

/-- The uniform fallback probability from `createDisplayResults`
(src/unnamed/part_002 line 311):
`data.recommended_heads.length ? 1 / data.recommended_heads.length : 0`. -/
def uniformFallbackProbability (heads : List String) : ℚ :=
  if heads.length ≠ 0 then 1 / heads.length else 0

/-- C3.  Numeric computations over empty or zero-valued data degrade to the
sentinel value 0 instead of raising: the heat intensity is 0 when the maximum
count is 0, the percent bar width is 0 when the maximum count is not positive,
and the uniform fallback probability is 0 when the recommended-heads list is
empty. -/
theorem zero_data_sentinels :
    (∀ value : ℚ, getIntensity value 0 = 0) ∧
    (∀ count max : ℚ, max ≤ 0 → frequencyPercent count max = 0) ∧
    uniformFallbackProbability [] = 0 := by
  refine ⟨fun value => ?_, fun count max h => ?_, ?_⟩
  · simp [getIntensity]
  · simp [frequencyPercent, not_lt.mpr h]
  · simp [uniformFallbackProbability]

/-- Witness for C3: the hypothesis `max ≤ 0` is satisfiable, at `max = 0`. -/
theorem zero_data_sentinels_witness : frequencyPercent 7 0 = 0 :=
  zero_data_sentinels.2.1 7 0 le_rfl

/-! ## The digits control, from `AlgorithmSelector.handleDigitsChange`
(src/unnamed/part_001 lines 149–152) -/

/-- `handleDigitsChange`:
`const value = Number(event.target.value) || 2;
 onDigitsChange(Math.min(Math.max(value, 1), 5));`
The parsed input is embedded as `Option ℚ`: `none` stands for a non-numeric
entry (`Number(...)` is `NaN`, which is falsy, so `|| 2` yields 2), and
`some 0` for an entry parsing to 0 (also falsy, so `|| 2` yields 2; note that
`Number('')` is 0). -/
def handleDigitsChange (input : Option ℚ) : ℚ :=
  let value : ℚ :=
    match input with
    | none => 2
    | some x => if x = 0 then 2 else x
  min (max value 1) 5

/-- Counterexample to C6 as stated: at the entered value 0 the handler
forwards 2 (the `|| 2` fallback fires on the falsy 0), while
`min(max(0, 1), 5) = 1`. -/
theorem digits_clamp_counterexample :
    handleDigitsChange (some 0) = 2 ∧ min (max (0 : ℚ) 1) 5 = 1 ∧ (2 : ℚ) ≠ 1 := by
  refine ⟨?_, ?_, by norm_num⟩
  · norm_num [handleDigitsChange]
  · norm_num

/-- C6 (amended).  The digit-count parameter always lies between 1 and 5: for
every value entered in the digits control, the value forwarded by the change
handler equals `min(max(value, 1), 5)` when the value is numeric and nonzero,
with non-numeric or zero input defaulting to 2, so a digits value outside
[1, 5] is never produced. -/
theorem digits_clamp_amended (input : Option ℚ) :
    (input = none ∨ input = some 0 → handleDigitsChange input = 2) ∧
    (∀ x : ℚ, input = some x → x ≠ 0 →
      handleDigitsChange input = min (max x 1) 5) ∧
    1 ≤ handleDigitsChange input ∧ handleDigitsChange input ≤ 5 := by
  refine ⟨?_, ?_, ?_, ?_⟩
  · rintro (rfl | rfl) <;> simp [handleDigitsChange] <;> norm_num
  · rintro x rfl hx
    simp [handleDigitsChange, hx]
  · exact le_min (le_max_right _ _) (by norm_num)
  · exact min_le_right _ _

/-- Witness for C6: a nonzero numeric entry, 3, is forwarded as
`min(max(3, 1), 5)`, which is within [1, 5]. -/
theorem digits_clamp_witness :
    handleDigitsChange (some 3) = min (max (3 : ℚ) 1) 5 :=
  (digits_clamp_amended (some 3)).2.1 3 rfl (by norm_num)

/-! ## Prediction display, from `PredictionPanel` (src/unnamed/part_002) -/

/-- `PredictionResult` (types.ts lines 42–48).  `supporting_metrics` is an
index-signature record; it is embedded as an association list. -/
structure PredictionResult where
  number : String
  probability : ℚ
  rank : ℕ
  supporting_metrics : Option (List (String × String))
  explanation : Option String
deriving DecidableEq, Repr

/-- `PredictionScore` (types.ts lines 69–72). -/
structure PredictionScore where
  number : String
  probability : ℚ
deriving DecidableEq, Repr

/-- `PredictionResponse` (types.ts lines 74–84), restricted to the fields read
by the embedded operations (`metadata` and `related` are display-only
pass-through data that no embedded operation inspects). -/
structure PredictionResponse where
  algorithm : String
  label : String
  timestamp : String
  recommended_heads : List String
  results : List PredictionResult
  scores : List PredictionScore
  notes : Option String
deriving DecidableEq, Repr

/-- `createDisplayResults` (src/unnamed/part_002 lines 289–318).  The three
branches follow the source in order: non-empty `results` pass through
(`supporting_metrics: item.supporting_metrics ?? undefined` is the identity on
the embedded `Option`); else non-empty `scores` are ranked by position
(`score.probability ?? 0` is the identity, `probability` being non-optional in
types.ts); else `recommended_heads` with the uniform fallback probability, or
the empty list. -/
def createDisplayResults : Option PredictionResponse → String → List PredictionResult
  | none, _ => []
  | some data, fallbackNotes =>
    if data.results.length > 0 then
      data.results.map (fun item => { item with supporting_metrics := item.supporting_metrics })
    else if data.scores.length > 0 then
      data.scores.mapIdx (fun index score =>
        { number := score.number
          probability := score.probability
          rank := index + 1
          supporting_metrics := none
          explanation := some (data.notes.getD fallbackNotes) })
    else if data.recommended_heads.length = 0 then []
    else
      data.recommended_heads.mapIdx (fun index number =>
        { number := number
          rank := index + 1
          probability := uniformFallbackProbability data.recommended_heads
          supporting_metrics := none
          explanation := some (data.notes.getD fallbackNotes) })

/-- The rendered prediction list (src/unnamed/part_002 line 416):
`results.slice(0, topK)` applied to the display results. -/
def renderedPredictionRows (data : Option PredictionResponse)
    (fallbackNotes : String) (topK : ℕ) : List PredictionResult :=
  (createDisplayResults data fallbackNotes).take topK

/-- C7.  A prediction set holds at most `top_k` entries: for every prediction
response and every `top_k` value, the rendered prediction list contains at
most `top_k` rows, because the display result list is truncated to its first
`top_k` elements before rendering. -/
theorem rendered_rows_at_most_topK
    (data : Option PredictionResponse) (fallbackNotes : String) (topK : ℕ) :
    (renderedPredictionRows data fallbackNotes topK).length ≤ topK := by
  simp only [renderedPredictionRows, List.length_take]
  exact min_le_left _ _

/-- Helper: mapping a rank-extracting projection over `mapIdx` with ranks
`index + 1` yields exactly `[1, …, n]`. -/
theorem map_rank_mapIdx {α : Type _} (l : List α) (f : ℕ → α → PredictionResult)
    (hf : ∀ i a, (f i a).rank = i + 1) :
    (l.mapIdx f).map PredictionResult.rank = List.range' 1 l.length := by
  apply List.ext_getElem
  · simp
  · intro i h1 h2
    simp only [List.getElem_map, List.getElem_range'_1]
    have hi : i < l.length := by simpa using h2
    have := List.get_mapIdx l f i hi
    simp only [List.get_eq_getElem] at this
    rw [this, hf]
    omega

/-- C8.  Prediction ranks are 1-based, unique and ascending: for every
prediction response whose `results` list is empty, the display list built by
`createDisplayResults` from `scores` or from `recommended_heads` assigns rank
`i + 1` to the element at index `i`, so the ranks read off the list are
exactly `1, …, n` in order, with no duplicates. -/
theorem display_ranks_one_based
    (data : PredictionResponse) (fallbackNotes : String)
    (h : data.results = []) :
    (createDisplayResults (some data) fallbackNotes).map PredictionResult.rank
      = List.range' 1 (createDisplayResults (some data) fallbackNotes).length ∧
    ((createDisplayResults (some data) fallbackNotes).map PredictionResult.rank).Nodup := by
  have hres : ¬ data.results.length > 0 := by simp [h]
  by_cases hs : data.scores.length > 0
  · have hrw : (createDisplayResults (some data) fallbackNotes).map PredictionResult.rank
        = List.range' 1 (createDisplayResults (some data) fallbackNotes).length := by
      simp only [createDisplayResults, if_neg hres, if_pos hs, List.length_mapIdx]
      exact map_rank_mapIdx _ _ (fun i a => rfl)
    exact ⟨hrw, hrw ▸ List.nodup_range' _ _⟩
  · by_cases hh : data.recommended_heads.length = 0
    · have he : data.recommended_heads = [] := List.length_eq_zero.mp hh
      simp [createDisplayResults, if_neg hres, if_neg hs, he]
    · have hrw : (createDisplayResults (some data) fallbackNotes).map PredictionResult.rank
          = List.range' 1 (createDisplayResults (some data) fallbackNotes).length := by
        simp only [createDisplayResults, if_neg hres, if_neg hs, if_neg hh, List.length_mapIdx]
        exact map_rank_mapIdx _ _ (fun i a => rfl)
      exact ⟨hrw, hrw ▸ List.nodup_range' _ _⟩

/-- Witness for C8: a concrete response with empty `results` and two scores
produces display ranks `[1, 2]` with no duplicates. -/
theorem display_ranks_one_based_witness :
    (createDisplayResults (some
        { algorithm := "frequency", label := "Frequency", timestamp := "t"
          recommended_heads := [], results := []
          scores := [⟨"12", 1/2⟩, ⟨"34", 1/4⟩], notes := none }) "fb").map
        PredictionResult.rank
      = List.range' 1 (createDisplayResults (some
        { algorithm := "frequency", label := "Frequency", timestamp := "t"
          recommended_heads := [], results := []
          scores := [⟨"12", 1/2⟩, ⟨"34", 1/4⟩], notes := none }) "fb").length :=
  (display_ranks_one_based _ "fb" rfl).1

/-! ## The `useAsync` hook, from `frontend/src/hooks/useAsync.ts` -/

/-- `AsyncState<T>` (useAsync.ts lines 3–7), with the error type abstracted. -/
structure AsyncState (T E : Type _) where
  data : Option T
  error : Option E
  loading : Bool
deriving DecidableEq, Repr

/-- The three `setState` transitions of `execute` (useAsync.ts lines 21–31):
entering the loading phase, resolving with a result, and rejecting with an
error. -/
inductive AsyncEvent (T E : Type _) where
  | start : AsyncEvent T E
  | resolve : T → AsyncEvent T E
  | reject : E → AsyncEvent T E
deriving DecidableEq, Repr

/-- The initial state (useAsync.ts line 18):
`{ data: initialData ?? null, error: null, loading: immediate }`. -/
def initialAsyncState {T E : Type _} (initialData : Option T) (immediate : Bool) :
    AsyncState T E :=
  { data := initialData, error := none, loading := immediate }

/-- One `setState` step of `execute`:
`start` is `(prev) => ({ ...prev, loading: true, error: null })`;
`resolve r` is `{ data: result, error: null, loading: false }`;
`reject e` is `{ data: null, error, loading: false }`. -/
def asyncStep {T E : Type _} (s : AsyncState T E) : AsyncEvent T E → AsyncState T E
  | .start => { s with loading := true, error := none }
  | .resolve r => { data := some r, error := none, loading := false }
  | .reject e => { data := none, error := some e, loading := false }

/-- The state after any sequence of `execute` transitions from the initial
state. -/
def runAsync {T E : Type _} (initialData : Option T) (immediate : Bool)
    (events : List (AsyncEvent T E)) : AsyncState T E :=
  events.foldl asyncStep (initialAsyncState initialData immediate)

/-- Helper: the error/data/loading invariant is preserved by every
`asyncStep`, hence by any fold. -/
theorem asyncFold_invariant {T E : Type _} (events : List (AsyncEvent T E)) :
    ∀ s : AsyncState T E,
      (s.error ≠ none → s.data = none ∧ s.loading = false) →
      ((events.foldl asyncStep s).error ≠ none →
        (events.foldl asyncStep s).data = none ∧
        (events.foldl asyncStep s).loading = false) := by
  induction events with
  | nil => intro s hs; exact hs
  | cons e rest ih =>
    intro s hs
    refine ih (asyncStep s e) ?_
    cases e with
    | start => intro h; simp [asyncStep] at h
    | resolve r => intro h; simp [asyncStep] at h
    | reject err => intro _; simp [asyncStep]

/-- C9.  In every state produced by the `useAsync` hook — initial, loading,
resolved, or rejected — a non-null error implies that `data` is null and
`loading` is false; the hook never simultaneously exposes an error and stale
data after a failed execution. -/
theorem useAsync_error_excludes_data {T E : Type _}
    (initialData : Option T) (immediate : Bool) (events : List (AsyncEvent T E))
    (herr : (runAsync initialData immediate events).error ≠ none) :
    (runAsync initialData immediate events).data = none ∧
    (runAsync initialData immediate events).loading = false :=
  asyncFold_invariant events (initialAsyncState initialData immediate)
    (fun h => absurd rfl h) herr

/-- Witness for C9: a concrete failed execution (`start` then `reject`)
produces a state with an error, no data, and loading off. -/
theorem useAsync_error_excludes_data_witness :
    (runAsync (T := ℕ) (E := String) (some 7) true
        [AsyncEvent.start, AsyncEvent.reject "boom"]).data = none ∧
    (runAsync (T := ℕ) (E := String) (some 7) true
        [AsyncEvent.start, AsyncEvent.reject "boom"]).loading = false :=
  useAsync_error_excludes_data (some 7) true
    [AsyncEvent.start, AsyncEvent.reject "boom"] (by decide)

/-! ## The backtest request payload, from `client.runLottoBacktest`
(frontend/src/api/client.ts lines 245–279) -/

/-- Strategy option maps (`Record<string, unknown>`), embedded as association
lists; `{}` is the empty list. -/
abbrev OptionsMap := List (String × String)

/-- `Partial<LottoRiskLimits>` (types.ts lines 153–156 under `Partial`). -/
structure PartialLottoRiskLimits where
  max_daily_stake_ratio : Option ℚ
  max_single_stake_ratio : Option ℚ
deriving DecidableEq, Repr

/-- `Partial<LottoPayoutRules>` (types.ts lines 158–161 under `Partial`). -/
structure PartialLottoPayoutRules where
  jackpot_multiplier : Option ℚ
  loss_multiplier : Option ℚ
deriving DecidableEq, Repr

/-- The `strategy` member of `LottoBacktestRequestBody` (client.ts lines
253–257): `options?: Record<string, unknown>` is `Option OptionsMap` (`none` =
absent), and `plugin_id?: string | null` is `Option (Option String)` (outer
`none` = absent/undefined, `some none` = null). -/
structure RequestStrategy where
  type : String
  options : Option OptionsMap
  plugin_id : Option (Option String)
deriving DecidableEq, Repr

/-- `LottoBacktestRequestBody` (client.ts lines 245–262). -/
structure LottoBacktestRequestBody where
  capital : ℚ
  date_start : String
  date_end : String
  region : Option (Option String)
  model : String
  top_k : ℕ
  digits : ℕ
  strategy : RequestStrategy
  risk_limits : Option PartialLottoRiskLimits
  payout_rules : Option PartialLottoPayoutRules
  lookback_draws : Option (Option ℕ)
  seed : Option (Option ℤ)
deriving DecidableEq, Repr

/-- The strategy object as posted: `options` and `plugin_id` are no longer
possibly-undefined. -/
structure PayloadStrategy where
  type : String
  options : OptionsMap
  plugin_id : Option String
deriving DecidableEq, Repr

/-- The posted body shape produced by `runLottoBacktest`. -/
structure LottoBacktestPayload where
  capital : ℚ
  date_start : String
  date_end : String
  region : Option (Option String)
  model : String
  top_k : ℕ
  digits : ℕ
  strategy : PayloadStrategy
  risk_limits : Option PartialLottoRiskLimits
  payout_rules : Option PartialLottoPayoutRules
  lookback_draws : Option (Option ℕ)
  seed : Option (Option ℤ)
deriving DecidableEq, Repr

/-- The payload construction in `runLottoBacktest` (client.ts lines 265–274):
`{ ...body, strategy: { type, options: body.strategy.options ?? {},
plugin_id: body.strategy.plugin_id ?? null },
risk_limits: body.risk_limits ?? undefined,
payout_rules: body.payout_rules ?? undefined }`.
`x ?? undefined` is the identity on an optional value, and
`plugin_id ?? null` collapses undefined to null, i.e. `Option.join`. -/
def buildLottoBacktestPayload (body : LottoBacktestRequestBody) : LottoBacktestPayload :=
  { capital := body.capital
    date_start := body.date_start
    date_end := body.date_end
    region := body.region
    model := body.model
    top_k := body.top_k
    digits := body.digits
    strategy :=
      { type := body.strategy.type
        options := body.strategy.options.getD []
        plugin_id := body.strategy.plugin_id.join }
    risk_limits := body.risk_limits
    payout_rules := body.payout_rules
    lookback_draws := body.lookback_draws
    seed := body.seed }

/-- C10.  For every request body, `runLottoBacktest` posts a payload in which
`strategy.options` is the given options object or `{}` (never undefined),
`strategy.plugin_id` is the given id or null (never undefined), and every
other field of the body is passed through unchanged. -/
theorem lotto_payload_normalizes_strategy (body : LottoBacktestRequestBody) :
    let p := buildLottoBacktestPayload body
    p.strategy.options = body.strategy.options.getD [] ∧
    p.strategy.plugin_id = body.strategy.plugin_id.join ∧
    p.strategy.type = body.strategy.type ∧
    p.capital = body.capital ∧ p.date_start = body.date_start ∧
    p.date_end = body.date_end ∧ p.region = body.region ∧
    p.model = body.model ∧ p.top_k = body.top_k ∧ p.digits = body.digits ∧
    p.risk_limits = body.risk_limits ∧ p.payout_rules = body.payout_rules ∧
    p.lookback_draws = body.lookback_draws ∧ p.seed = body.seed :=
  ⟨rfl, rfl, rfl, rfl, rfl, rfl, rfl, rfl, rfl, rfl, rfl, rfl, rfl, rfl⟩

/-! ## The backtest engine, modelled from the spec

The engine itself runs in the backend, outside this source tree; only its
request/response contract (`types.ts`, `client.ts`) and its consumer
(`BacktestPro`) are present.  The definitions below are therefore modelled
from the specification text (§3 data model, §4.1 BacktestEngine, §4.3
RiskLimiter, §4.4 PayoutCalculator, §7 error taxonomy) and each doc comment
says so. -/

/-- Modelled from the spec: `BacktestConfig` (§3), restricted to the fields
the engine algorithm reads.  Calendar dates of the requested range are
abstracted as ordinal day numbers (`ℕ`), which preserves their ordering —
the range bounds are only ever compared with each other. -/
structure BacktestConfig where
  capital : ℚ
  date_start : ℕ
  date_end : ℕ
  region : String
  model : String
  top_k : ℕ
  digits : ℕ
  jackpot_multiplier : ℚ
  loss_multiplier : ℚ
  max_daily_stake_ratio : ℚ
  max_single_stake_ratio : ℚ
deriving DecidableEq, Repr

/-- Modelled from the spec: the `ConfigError` conditions of §4.1. -/
inductive ConfigError where
  | invalidDateRange
  | nonPositiveCapital
  | digitsOutOfRange
  | invalidRiskRatio
deriving DecidableEq, Repr

/-- Modelled from the spec: the error taxonomy of §7 restricted to the errors
`run` itself raises before/at the start of simulation. -/
inductive RunError where
  | config : ConfigError → RunError
  | dataUnavailable : RunError
deriving DecidableEq, Repr

/-- Modelled from the spec (§4.1): `run` fails with `ConfigError` if
`date_start > date_end`, `capital ≤ 0`, `digits` outside `[1, 5]`, or either
risk ratio outside `(0, 1]`.  Returns `none` when the config is valid. -/
def validateConfig (cfg : BacktestConfig) : Option ConfigError :=
  if cfg.date_end < cfg.date_start then some .invalidDateRange
  else if cfg.capital ≤ 0 then some .nonPositiveCapital
  else if cfg.digits < 1 ∨ 5 < cfg.digits then some .digitsOutOfRange
  else if ¬ (0 < cfg.max_daily_stake_ratio ∧ cfg.max_daily_stake_ratio ≤ 1) then
    some .invalidRiskRatio
  else if ¬ (0 < cfg.max_single_stake_ratio ∧ cfg.max_single_stake_ratio ≤ 1) then
    some .invalidRiskRatio
  else none

/-- Modelled from the spec: `DrawRecord` (§3) — a date and the draw's derived
head set. -/
structure DrawRecord where
  date : String
  heads : List String
deriving DecidableEq, Repr

/-- Modelled from the spec (§2, §6): `PredictionModel` is external and
pluggable — a pure function of the history strictly before the current day to
a ranked prediction list.  The engine treats it as opaque. -/
abbrev PredictionModel := List DrawRecord → List LottoTimelinePrediction

/-- Modelled from the spec (§4.2, common contract): a staking strategy maps
(capital_start, predictions) to a proposal of `(number, raw_stake)` pairs.
The six concrete variants are interchangeable implementations of this
contract; the engine is agnostic to which one is plugged in. -/
abbrev StakingStrategy := ℚ → List LottoTimelinePrediction → List (String × ℚ)

/-- Modelled from the spec (§4.3 RiskLimiter): first each individual stake is
capped to `capital_start × max_single_stake_ratio`; then, if the sum of the
capped stakes exceeds `capital_start × max_daily_stake_ratio`, all stakes are
scaled proportionally by `daily_cap / sum`; zero-stake proposals are
dropped. -/
def clampStakes (capitalStart : ℚ) (proposal : List (String × ℚ))
    (maxSingle maxDaily : ℚ) : List (String × ℚ) :=
  let singleCap := capitalStart * maxSingle
  let capped := proposal.map (fun p => (p.1, min p.2 singleCap))
  let total := (capped.map Prod.snd).sum
  let dailyCap := capitalStart * maxDaily
  let scaled :=
    if dailyCap < total then capped.map (fun p => (p.1, p.2 * (dailyCap / total)))
    else capped
  scaled.filter (fun p => p.2 != 0)

/-- Modelled from the spec (§4.4 PayoutCalculator): a bet hits iff its number
is a member of the draw's head set; `payout_net` is
`stake × (jackpot_multiplier − 1)` on a hit and `stake × loss_multiplier` on
a miss. -/
def resolveBet (headSet : List String) (jackpot loss : ℚ)
    (number : String) (stake : ℚ) : Bool × ℚ :=
  let hit := headSet.contains number
  (hit, if hit then stake * (jackpot - 1) else stake * loss)

/-- Modelled from the spec (§4.1): the engine's per-day mutable state —
current capital, the running peak of `capital_end` (absent before the first
entry, per the §3 drawdown invariant), and the halting flag. -/
structure EngineState where
  capital : ℚ
  peak : Option ℚ
  halted : Bool
deriving DecidableEq, Repr

/-- Modelled from the spec (§4.1 algorithm, steps 1–7): one day of the loop.
If halted, a pass-through entry with capital pinned and empty
bets/predictions; otherwise predictions from history strictly before the day,
staking, risk clamping, payout resolution, capital/peak/drawdown update, and
the halting check `capital_end ≤ 0`. -/
def stepDay (cfg : BacktestConfig) (model : PredictionModel)
    (strategy : StakingStrategy) (history : List DrawRecord) (draw : DrawRecord)
    (st : EngineState) : LottoTimelineEntry × EngineState :=
  if st.halted then
    ({ date := draw.date
       capital_start := st.capital
       capital_end := st.capital
       stake_total := 0
       pnl := 0
       bets := []
       predictions := []
       hits := []
       drawdown := max 0 ((st.peak.getD st.capital) - st.capital)
       daily_return := 0
       capital_halted := true }, st)
  else
    let preds := model history
    let committed := clampStakes st.capital (strategy st.capital preds)
      cfg.max_single_stake_ratio cfg.max_daily_stake_ratio
    let bets := committed.map (fun p =>
      let res := resolveBet draw.heads cfg.jackpot_multiplier cfg.loss_multiplier p.1 p.2
      let pred := preds.find? (fun q => q.number == p.1)
      { number := p.1
        stake := p.2
        hit := res.1
        payout := res.2
        rank := pred.map (fun q => q.rank)
        probability := pred.bind (fun q => q.probability) : LottoTimelineBet })
    let pnl := (bets.map (fun b => b.payout)).sum
    let capitalEnd := st.capital + pnl
    let peak := max (st.peak.getD capitalEnd) capitalEnd
    let halted := decide (capitalEnd ≤ 0)
    ({ date := draw.date
       capital_start := st.capital
       capital_end := capitalEnd
       stake_total := (committed.map Prod.snd).sum
       pnl := pnl
       bets := bets
       predictions := preds
       hits := (bets.filter (fun b => b.hit)).map (fun b => b.number)
       drawdown := max 0 (peak - capitalEnd)
       daily_return := if st.capital = 0 then 0 else pnl / st.capital
       capital_halted := halted },
     { capital := capitalEnd, peak := some peak, halted := halted })

/-- Modelled from the spec (§4.1): the day loop — iterate draws in the order
provided (ascending date order from the DrawHistoryProvider), threading the
engine state and accumulating one `TimelineEntry` per draw.  Calendar gaps
simply contribute no draw and hence no entry. -/
def runDays (cfg : BacktestConfig) (model : PredictionModel)
    (strategy : StakingStrategy) :
    List DrawRecord → List DrawRecord → EngineState → List LottoTimelineEntry
  | _, [], _ => []
  | history, draw :: rest, st =>
    let r := stepDay cfg model strategy history draw st
    r.1 :: runDays cfg model strategy (history ++ [draw]) rest r.2

/-- The calendar month of an ISO `YYYY-MM-DD` date: its first 7 characters. -/
def monthKey (date : String) : String :=
  ((date.toList).take 7).asString

/-- Add a day's pnl into a by-month association list. -/
def addMonthPnl : List (String × ℚ) → String → ℚ → List (String × ℚ)
  | [], m, v => [(m, v)]
  | (k, s) :: rest, m, v =>
    if k = m then (k, s + v) :: rest else (k, s) :: addMonthPnl rest m v

/-- Modelled from the spec (§4.1): group pnl by calendar month. -/
def monthlyPnl (timeline : List LottoTimelineEntry) : List (String × ℚ) :=
  timeline.foldl (fun acc e => addMonthPnl acc (monthKey e.date) e.pnl) []

/-- Modelled from the spec (§3): the calendar month with the highest summed
pnl, if any month exists. -/
def bestMonth (groups : List (String × ℚ)) : Option (String × ℚ) :=
  groups.foldl
    (fun best g =>
      match best with
      | none => some g
      | some b => if b.2 < g.2 then some g else some b)
    none

/-- Newton iteration for the integer square root, with a step-count fuel;
structurally recursive, so it evaluates inside the kernel. -/
def isqrtGo (n : ℕ) : ℕ → ℕ → ℕ
  | 0, guess => guess
  | fuel + 1, guess =>
    let next := (guess + n / guess) / 2
    if next < guess then isqrtGo n fuel next else guess

/-- The integer square root (⌊√n⌋). -/
def isqrt (n : ℕ) : ℕ :=
  if n ≤ 1 then n else isqrtGo n n (n / 2 + 1)

/-- A rational square root (componentwise integer square root, exact on
perfect squares), standing in for the backend's floating-point square
root. -/
def ratSqrt (q : ℚ) : ℚ :=
  mkRat (isqrt q.num.toNat) (isqrt q.den)

/-- Modelled from the spec (§3): `sharpe_like` =
`mean(daily_return) / stdev(daily_return) × √365`, null if the variance is
zero or there are fewer than 2 days.  `ratSqrt` (exact on perfect squares)
stands in for the backend's floating-point square root; the claims under
verification depend only on the null conditions, not on the numeric value. -/
def sharpeLike (returns : List ℚ) : Option ℚ :=
  if returns.length < 2 then none
  else
    let n : ℚ := returns.length
    let mean := returns.sum / n
    let variance := (returns.map (fun r => (r - mean) ^ 2)).sum / n
    if variance = 0 then none
    else some (mean / ratSqrt variance * ratSqrt 365)

/-- Modelled from the spec (§3 SummaryStats, §4.1 reduction): the pure
reduction of the finalized timeline into the summary.  `win_rate` and
`accuracy` are computed identically (§3 notes them as currently duplicate
definitions); `stop_reason` is `capital_depleted` iff the run halted. -/
def summarize (cfg : BacktestConfig) (timeline : List LottoTimelineEntry) :
    LottoBacktestSummary :=
  let allBets := timeline.foldr (fun e acc => e.bets ++ acc) []
  let totalBets := allBets.length
  let totalWins := (allBets.filter (fun b => b.hit)).length
  let winRate := if totalBets = 0 then 0 else (totalWins : ℚ) / totalBets
  { final_balance := ((timeline.getLast?).map (fun e => e.capital_end)).getD cfg.capital
    total_bets := totalBets
    total_wins := totalWins
    total_losses := totalBets - totalWins
    win_rate := winRate
    max_drawdown := (timeline.map (fun e => e.drawdown)).foldr max 0
    best_month := (bestMonth (monthlyPnl timeline)).map Prod.fst
    best_month_pnl := (bestMonth (monthlyPnl timeline)).map Prod.snd
    sharpe_like := sharpeLike (timeline.map (fun e => e.daily_return))
    accuracy := winRate
    stop_reason :=
      if timeline.any (fun e => e.capital_halted) then "capital_depleted"
      else "completed" }

/-- Modelled from the spec (§4.1): the chart series — capital curve from
`capital_end`, cumulative accuracy curve, per-day profit curve. -/
def accuracyCurveGo : ℕ → ℕ → List LottoTimelineEntry → List LottoChartPoint
  | _, _, [] => []
  | bets, hits, e :: rest =>
    let b := bets + e.bets.length
    let h := hits + (e.bets.filter (fun x => x.hit)).length
    { date := e.date, value := if b = 0 then 0 else (h : ℚ) / b }
      :: accuracyCurveGo b h rest

/-- Modelled from the spec (§4.1): the three chart series. -/
def buildCharts (timeline : List LottoTimelineEntry) : LottoBacktestCharts :=
  { capital_curve := timeline.map (fun e => { date := e.date, value := e.capital_end })
    accuracy_curve := accuracyCurveGo 0 0 timeline
    profit_curve := timeline.map (fun e => { date := e.date, value := e.pnl }) }

/-- The run response, from `LottoBacktestResponse` (types.ts lines 217–236)
restricted to the computed members (the `config` echo and free-form `logs`
carry no engine state). -/
structure LottoBacktestResponse where
  summary : LottoBacktestSummary
  timeline : List LottoTimelineEntry
  charts : LottoBacktestCharts
deriving DecidableEq, Repr

/-- Modelled from the spec (§4.1 contract): `run(config)` — validate, fail
with `DataUnavailableError` on an empty draw range, otherwise run the day
loop from the initial capital and reduce into summary and charts.  Capital
depletion is a normal terminal state, not an error. -/
def runLotto (cfg : BacktestConfig) (model : PredictionModel)
    (strategy : StakingStrategy) (draws : List DrawRecord) :
    Except RunError LottoBacktestResponse :=
  match validateConfig cfg with
  | some e => .error (.config e)
  | none =>
    if draws.isEmpty then .error .dataUnavailable
    else
      let timeline :=
        runDays cfg model strategy [] draws
          { capital := cfg.capital, peak := none, halted := false }
      .ok { summary := summarize cfg timeline
            timeline := timeline
            charts := buildCharts timeline }

/-! ## Capital chaining (claim C1) -/

/-- `chainedFrom c timeline`: the first entry starts at capital `c`, and each
subsequent entry starts at the previous entry's `capital_end`. -/
def chainedFrom (c : ℚ) : List LottoTimelineEntry → Prop
  | [] => True
  | e :: rest => e.capital_start = c ∧ chainedFrom e.capital_end rest

/-- A day's entry always opens at the state's current capital. -/
theorem stepDay_capital_start (cfg : BacktestConfig) (model : PredictionModel)
    (strategy : StakingStrategy) (history : List DrawRecord) (draw : DrawRecord)
    (st : EngineState) :
    (stepDay cfg model strategy history draw st).1.capital_start = st.capital := by
  unfold stepDay
  split <;> rfl

/-- The state carried to the next day holds exactly the entry's
`capital_end`. -/
theorem stepDay_next_capital (cfg : BacktestConfig) (model : PredictionModel)
    (strategy : StakingStrategy) (history : List DrawRecord) (draw : DrawRecord)
    (st : EngineState) :
    (stepDay cfg model strategy history draw st).2.capital =
      (stepDay cfg model strategy history draw st).1.capital_end := by
  unfold stepDay
  split <;> rfl

/-- The day loop emits a capital-chained timeline from whatever capital its
state starts at. -/
theorem runDays_chainedFrom (cfg : BacktestConfig) (model : PredictionModel)
    (strategy : StakingStrategy) :
    ∀ (draws history : List DrawRecord) (st : EngineState),
      chainedFrom st.capital (runDays cfg model strategy history draws st) := by
  intro draws
  induction draws with
  | nil => intro history st; exact trivial
  | cons draw rest ih =>
    intro history st
    refine ⟨stepDay_capital_start cfg model strategy history draw st, ?_⟩
    rw [← stepDay_next_capital cfg model strategy history draw st]
    exact ih (history ++ [draw]) _

/-- C1.  For every valid run, `capital_start` on day 1 equals
`config.capital`, and for every consecutive pair of non-gap days `i` and
`i + 1` of the timeline, `capital_start(day i+1)` equals
`capital_end(day i)`: every timeline a run returns is capital-chained from
the configured initial capital.  (Gap days contribute no timeline entry, so
consecutive entries are exactly the consecutive non-gap days.) -/
theorem run_capital_chaining (cfg : BacktestConfig) (model : PredictionModel)
    (strategy : StakingStrategy) (draws : List DrawRecord)
    (r : LottoBacktestResponse)
    (h : runLotto cfg model strategy draws = Except.ok r) :
    chainedFrom cfg.capital r.timeline := by
  unfold runLotto at h
  cases hv : validateConfig cfg with
  | some e => rw [hv] at h; exact absurd h (by simp)
  | none =>
    rw [hv] at h
    by_cases hd : draws.isEmpty
    · rw [if_pos hd] at h; exact absurd h (by simp)
    · rw [if_neg hd] at h
      have ht : r.timeline =
          runDays cfg model strategy [] draws
            { capital := cfg.capital, peak := none, halted := false } := by
        cases h; rfl
      rw [ht]
      exact runDays_chainedFrom cfg model strategy draws []
        { capital := cfg.capital, peak := none, halted := false }

/-- A concrete valid configuration for witnesses. -/
def demoConfig : BacktestConfig :=
  { capital := 1000000, date_start := 1, date_end := 2, region := "Miền Bắc"
    model := "frequency", top_k := 1, digits := 2
    jackpot_multiplier := 70, loss_multiplier := -1
    max_daily_stake_ratio := 1, max_single_stake_ratio := 1 }

/-- A concrete prediction model: always recommends head "12". -/
def demoModel : PredictionModel :=
  fun _ => [{ rank := 1, number := "12", probability := some (1/2) }]

/-- A concrete staking strategy: a fixed 100000 on "12". -/
def demoStrategy : StakingStrategy :=
  fun _ _ => [("12", 100000)]

/-- Two concrete draws: a hit day then a miss day. -/
def demoDraws : List DrawRecord :=
  [{ date := "2025-01-01", heads := ["12"] },
   { date := "2025-01-02", heads := ["34"] }]

/-- The response of the concrete demo run (with an inert fallback that the
match never takes, the run being valid). -/
def demoResponse : LottoBacktestResponse :=
  match runLotto demoConfig demoModel demoStrategy demoDraws with
  | .ok r => r
  | .error _ => { summary := summarize demoConfig [], timeline := [], charts := buildCharts [] }

/-- Witness for C1: the concrete two-day demo run's timeline is
capital-chained from the configured capital. -/
theorem run_capital_chaining_witness :
    chainedFrom demoConfig.capital demoResponse.timeline :=
  run_capital_chaining demoConfig demoModel demoStrategy demoDraws demoResponse (by rfl)

/-! ## Config validation (claim C4) -/

/-- Whether a run outcome is a `ConfigError` rejection. -/
def isConfigError {α : Type _} : Except RunError α → Bool
  | .error (.config _) => true
  | _ => false

/-- Any of the §4.1 invalid-config conditions makes `validateConfig` report
an error. -/
theorem validateConfig_some_of_bad (cfg : BacktestConfig)
    (hbad : cfg.date_end < cfg.date_start ∨ cfg.capital ≤ 0 ∨
      cfg.digits < 1 ∨ 5 < cfg.digits ∨
      ¬ (0 < cfg.max_daily_stake_ratio ∧ cfg.max_daily_stake_ratio ≤ 1) ∨
      ¬ (0 < cfg.max_single_stake_ratio ∧ cfg.max_single_stake_ratio ≤ 1)) :
    ∃ e, validateConfig cfg = some e := by
  cases hv : validateConfig cfg with
  | some e => exact ⟨e, rfl⟩
  | none =>
    exfalso
    unfold validateConfig at hv
    by_cases h1 : cfg.date_end < cfg.date_start
    · rw [if_pos h1] at hv; exact Option.noConfusion hv
    rw [if_neg h1] at hv
    by_cases h2 : cfg.capital ≤ 0
    · rw [if_pos h2] at hv; exact Option.noConfusion hv
    rw [if_neg h2] at hv
    by_cases h3 : cfg.digits < 1 ∨ 5 < cfg.digits
    · rw [if_pos h3] at hv; exact Option.noConfusion hv
    rw [if_neg h3] at hv
    by_cases h4 : ¬ (0 < cfg.max_daily_stake_ratio ∧ cfg.max_daily_stake_ratio ≤ 1)
    · rw [if_pos h4] at hv; exact Option.noConfusion hv
    rw [if_neg h4] at hv
    by_cases h5 : ¬ (0 < cfg.max_single_stake_ratio ∧ cfg.max_single_stake_ratio ≤ 1)
    · rw [if_pos h5] at hv; exact Option.noConfusion hv
    rcases hbad with h | h | h | h | h | h
    · exact h1 h
    · exact h2 h
    · exact h3 (Or.inl h)
    · exact h3 (Or.inr h)
    · exact h4 h
    · exact h5 h

/-- C4.  `run(config)` fails with `ConfigError` — rejected before any
simulation step is taken — whenever `date_start > date_end`, `capital ≤ 0`,
`digits` is outside `[1, 5]`, or either risk ratio is outside `(0, 1]`: for
every such config the outcome is a `ConfigError` for *every* draw history,
prediction model and staking strategy, i.e. independently of anything the
simulation could read. -/
theorem invalid_config_rejected (cfg : BacktestConfig)
    (hbad : cfg.date_end < cfg.date_start ∨ cfg.capital ≤ 0 ∨
      cfg.digits < 1 ∨ 5 < cfg.digits ∨
      ¬ (0 < cfg.max_daily_stake_ratio ∧ cfg.max_daily_stake_ratio ≤ 1) ∨
      ¬ (0 < cfg.max_single_stake_ratio ∧ cfg.max_single_stake_ratio ≤ 1))
    (model : PredictionModel) (strategy : StakingStrategy)
    (draws : List DrawRecord) :
    isConfigError (runLotto cfg model strategy draws) = true := by
  obtain ⟨e, he⟩ := validateConfig_some_of_bad cfg hbad
  unfold runLotto
  rw [he]
  rfl

/-- A concrete invalid configuration: zero capital. -/
def demoBadConfig : BacktestConfig :=
  { demoConfig with capital := 0 }

/-- Witness for C4: the zero-capital config is rejected as a `ConfigError`
on the concrete demo inputs. -/
theorem invalid_config_rejected_witness :
    isConfigError (runLotto demoBadConfig demoModel demoStrategy demoDraws) = true :=
  invalid_config_rejected demoBadConfig (Or.inr (Or.inl (by norm_num [demoBadConfig])))
    demoModel demoStrategy demoDraws

/-! ## Capital depletion is a normal terminal state (claim C5) -/

/-- The blocks of the results section of `BacktestPro` (BacktestPro.tsx lines
885–911), in render order. -/
inductive RenderedBlock where
  | capitalWarning
  | exportActions
  | summaryTable
  | chartsSection
  | heatmap
  | tradesTable
deriving DecidableEq, Repr

/-- The results section render (BacktestPro.tsx lines 885–911): the capital
warning banner is emitted exactly under
`result.summary.stop_reason === 'capital_depleted'`, followed by the export
actions, summary table, charts, heatmap and trades table. -/
def renderResultsSection (result : LottoBacktestResponse) : List RenderedBlock :=
  (if result.summary.stop_reason = "capital_depleted"
    then [RenderedBlock.capitalWarning] else [])
    ++ [RenderedBlock.exportActions, RenderedBlock.summaryTable,
        RenderedBlock.chartsSection, RenderedBlock.heatmap,
        RenderedBlock.tradesTable]

/-- The stop-reason row of `SummaryTable` (BacktestPro.tsx line 487):
`summary.stop_reason === 'capital_depleted' ? 'Hết vốn' : 'Hoàn tất phạm vi'`. -/
def stopReasonLabel (summary : LottoBacktestSummary) : String :=
  if summary.stop_reason = "capital_depleted" then "Hết vốn" else "Hoàn tất phạm vi"

/-- The reduced summary always reports one of the two terminal states. -/
theorem summarize_stop_reason_cases (cfg : BacktestConfig)
    (timeline : List LottoTimelineEntry) :
    (summarize cfg timeline).stop_reason = "capital_depleted" ∨
    (summarize cfg timeline).stop_reason = "completed" := by
  by_cases h : timeline.any (fun e => e.capital_halted) <;> simp [summarize, h]

/-- C5.  Capital depletion is not an error: past config validation and the
data-availability check, a run always yields a complete summary
(`runLotto` is `ok`), whose `stop_reason` is one of `capital_depleted` and
`completed`; and the results view renders the capital-depletion warning
exactly when `summary.stop_reason` equals `capital_depleted`, reporting
normal completion (`Hoàn tất phạm vi`) for every other `stop_reason`
value. -/
theorem capital_depletion_is_normal (cfg : BacktestConfig)
    (model : PredictionModel) (strategy : StakingStrategy)
    (draws : List DrawRecord) (resp : LottoBacktestResponse)
    (hv : validateConfig cfg = none) (hne : draws ≠ []) :
    (runLotto cfg model strategy draws).isOk = true ∧
    ((runLotto cfg model strategy draws).toOption.all fun r =>
      r.summary.stop_reason == "capital_depleted" ||
      r.summary.stop_reason == "completed") = true ∧
    (RenderedBlock.capitalWarning ∈ renderResultsSection resp ↔
      resp.summary.stop_reason = "capital_depleted") ∧
    (resp.summary.stop_reason ≠ "capital_depleted" →
      stopReasonLabel resp.summary = "Hoàn tất phạm vi") := by
  have hd : draws.isEmpty = false := by
    cases draws with
    | nil => exact absurd rfl hne
    | cons a l => rfl
  refine ⟨?_, ?_, ?_, ?_⟩
  · unfold runLotto
    rw [hv, hd]
    rfl
  · unfold runLotto
    rw [hv, hd]
    rcases summarize_stop_reason_cases cfg
        (runDays cfg model strategy [] draws
          { capital := cfg.capital, peak := none, halted := false }) with h | h <;>
      simp [Except.toOption, Option.all, h]
  · by_cases h : resp.summary.stop_reason = "capital_depleted" <;>
      simp [renderResultsSection, h]
  · intro h
    simp [stopReasonLabel, h]

/-- A concrete configuration whose run depletes its capital: the whole
capital may be staked in one day. -/
def depletionConfig : BacktestConfig :=
  { capital := 100, date_start := 1, date_end := 2, region := "Miền Bắc"
    model := "frequency", top_k := 1, digits := 2
    jackpot_multiplier := 70, loss_multiplier := -1
    max_daily_stake_ratio := 1, max_single_stake_ratio := 1 }

/-- A strategy staking the entire current capital on "12". -/
def depletionStrategy : StakingStrategy :=
  fun capital _ => [("12", capital)]

/-- Two concrete draws that both miss "12". -/
def depletionDraws : List DrawRecord :=
  [{ date := "2025-01-01", heads := ["34"] },
   { date := "2025-01-02", heads := ["56"] }]

/-- The response of the concrete capital-depleting run. -/
def depletionResponse : LottoBacktestResponse :=
  match runLotto depletionConfig demoModel depletionStrategy depletionDraws with
  | .ok r => r
  | .error _ =>
    { summary := summarize depletionConfig [], timeline := [], charts := buildCharts [] }

/-- Witness for C5, on the concrete capital-depleting run. -/
theorem capital_depletion_is_normal_witness :
    (runLotto depletionConfig demoModel depletionStrategy depletionDraws).isOk = true ∧
    ((runLotto depletionConfig demoModel depletionStrategy depletionDraws).toOption.all
      fun r =>
        r.summary.stop_reason == "capital_depleted" ||
        r.summary.stop_reason == "completed") = true ∧
    (RenderedBlock.capitalWarning ∈ renderResultsSection depletionResponse ↔
      depletionResponse.summary.stop_reason = "capital_depleted") ∧
    (depletionResponse.summary.stop_reason ≠ "capital_depleted" →
      stopReasonLabel depletionResponse.summary = "Hoàn tất phạm vi") :=
  capital_depletion_is_normal depletionConfig demoModel depletionStrategy
    depletionDraws depletionResponse (by decide) (by decide)

end XSMB
